import Mathlib

set_option maxRecDepth 4096

/-!
Shallow embedding of the IS601_Module4 command-line calculator
(`app/operation/operations.py`, `app/calculation/calculation.py`,
`app/calculator/calculator.py`) in Lean 4.

Modelling conventions:
* Python floats are modelled as exact rationals (`ℚ`); the special IEEE
  values produced by the `float` builtin are captured by `PyFloat`
  (finite / inf / -inf / nan).  Rounding of decimal literals to binary
  doubles is not modelled; overflow of a decimal literal to infinity is
  modelled with the 2^1024 threshold.
* Python exceptions are values of `PyErr`; a function that can raise
  returns `Except PyErr α`.
* Python strings are Lean `String`s; `str.strip`, `str.lower` and
  `str.split()` are re-implemented structurally over `List Char`
  (`pyStrip`, `pyLower`, `pySplitWS`) so that every definition reduces
  in the kernel.  Only ASCII whitespace is modelled.
* Printing is modelled by a list of `Output` events emitted per REPL
  iteration; static text blocks (help screen, banners) appear as single
  events, dynamic text keeps its dynamic content.
* Object identity (needed for the history-copy claims) is modelled in
  the `ObjModel` namespace by an explicit heap of list objects and
  Calculation objects addressed by natural-number references.
-/

/-- Python exception classes that the calculator code can raise or catch. -/
inductive PyErr where
  | typeError (msg : String)
  | valueError (msg : String)
  | zeroDivisionError (msg : String)
  | attributeError (msg : String)
  | keyError (msg : String)
deriving DecidableEq, Repr

/-- Values the Python `float` builtin can produce: a finite value
(modelled exactly as a rational) or one of the IEEE specials. -/
inductive PyFloat where
  | finite (q : ℚ)
  | inf
  | negInf
  | nan
deriving DecidableEq, Repr

/-- Python `==` on floats: `nan` compares unequal to everything,
including itself; the other values compare by identity of the model. -/
def pyFloatEq : PyFloat → PyFloat → Bool
  | PyFloat.nan, _ => false
  | _, PyFloat.nan => false
  | PyFloat.inf, PyFloat.inf => true
  | PyFloat.negInf, PyFloat.negInf => true
  | PyFloat.finite a, PyFloat.finite b => a == b
  | _, _ => false

/-- ASCII whitespace recognised by Python `str.strip` / `str.split`. -/
def isPyWS (c : Char) : Bool :=
  c == ' ' || c == '\t' || c == '\n' || c == '\r' || c == '\x0b' || c == '\x0c'

/-- Python `str.strip()` with no argument (surrounding whitespace removed). -/
def pyStrip (s : String) : String :=
  String.mk (((s.toList.dropWhile isPyWS).reverse.dropWhile isPyWS).reverse)

/-- Python `str.lower()` (ASCII case folding suffices for this program). -/
def pyLower (s : String) : String :=
  String.mk (s.toList.map Char.toLower)

/-- Helper for `pySplitWS`: walks the characters accumulating the current
word (in reverse). -/
def splitWSAux : List Char → List Char → List String
  | [], acc => if acc.isEmpty then [] else [String.mk acc.reverse]
  | c :: cs, acc =>
    if isPyWS c then
      if acc.isEmpty then splitWSAux cs []
      else String.mk acc.reverse :: splitWSAux cs []
    else splitWSAux cs (c :: acc)

/-- Python `str.split()` with no argument: split on runs of whitespace,
dropping empty pieces. -/
def pySplitWS (s : String) : List String :=
  splitWSAux s.toList []

/-- Numeric value of a list of decimal digit characters. -/
def digitsToNat (cs : List Char) : Nat :=
  cs.foldl (fun acc c => acc * 10 + (c.toNat - 48)) 0

/-- Parse the optional exponent suffix of a float literal: a possibly
signed non-empty run of digits. -/
def parseExponent (cs : List Char) : Option ℤ :=
  match cs with
  | '+' :: ds => if ds ≠ [] ∧ ds.all Char.isDigit then some (digitsToNat ds) else none
  | '-' :: ds => if ds ≠ [] ∧ ds.all Char.isDigit then some (-(digitsToNat ds : ℤ)) else none
  | ds => if ds ≠ [] ∧ ds.all Char.isDigit then some (digitsToNat ds) else none

/-- Parse the mantissa of a decimal float literal: digits with at most
one point, at least one digit overall.  Returns the pair (M, L): the
digit string read as the natural number M with the point ignored, and
the count L of fraction digits, so the mantissa denotes M / 10^L. -/
def parseMantissa (cs : List Char) : Option (ℕ × ℕ) :=
  let ip := cs.takeWhile (fun c => c ≠ '.')
  let rest := cs.dropWhile (fun c => c ≠ '.')
  match rest with
  | [] =>
    if ip ≠ [] ∧ ip.all Char.isDigit then some (digitsToNat ip, 0) else none
  | _ :: fp =>
    if (ip ≠ [] ∨ fp ≠ []) ∧ ip.all Char.isDigit ∧ fp.all Char.isDigit then
      some (digitsToNat ip * 10 ^ fp.length + digitsToNat fp, fp.length)
    else none

/-- The value of 2^1024, written out as a literal so that comparisons
against it reduce without deep exponentiation. -/
def floatOverflowNat : ℕ := 179769313486231590772930519078902473361797697894230657273430081157732675805500963132708477322407536021120113879871393357658789768814416622492847430639474124377767893424865485276302219601246094119453082952085005768838150682342462881473913110540827237163350510684586298239947245938479716304835356329624224137216

/-- Decidable equality for raised-or-returned outcomes, used to evaluate
the embedded functions at concrete inputs. -/
instance exceptDecEq {ε α : Type} [DecidableEq ε] [DecidableEq α] :
    DecidableEq (Except ε α) := fun x y =>
  match x, y with
  | Except.ok a, Except.ok b =>
    if h : a = b then isTrue (by rw [h])
    else isFalse (by intro hc; cases hc; exact h rfl)
  | Except.error a, Except.error b =>
    if h : a = b then isTrue (by rw [h])
    else isFalse (by intro hc; cases hc; exact h rfl)
  | Except.ok _, Except.error _ => isFalse (by intro hc; cases hc)
  | Except.error _, Except.ok _ => isFalse (by intro hc; cases hc)

/-- Modelled from the Python `float` builtin applied to a string:
optional surrounding whitespace, optional sign, then `inf`/`infinity`/
`nan` (case-insensitive) or a decimal literal with optional fraction and
exponent.  Digit-group underscores and binary rounding are not modelled;
a literal whose magnitude reaches 2^1024 overflows to infinity. -/
def pyFloatOfString (s : String) : Option PyFloat :=
  let t := (pyStrip s).toList
  let signed : Bool × List Char :=
    match t with
    | '+' :: rest => (false, rest)
    | '-' :: rest => (true, rest)
    | rest => (false, rest)
  let neg := signed.1
  let body := signed.2
  let low := String.mk (body.map Char.toLower)
  if low = "inf" ∨ low = "infinity" then
    some (if neg then PyFloat.negInf else PyFloat.inf)
  else if low = "nan" then
    some PyFloat.nan
  else
    let mantPart := body.takeWhile (fun c => c ≠ 'e' ∧ c ≠ 'E')
    let expPart := body.dropWhile (fun c => c ≠ 'e' ∧ c ≠ 'E')
    let expVal : Option ℤ :=
      match expPart with
      | [] => some 0
      | _ :: es => parseExponent es
    match parseMantissa mantPart, expVal with
    | some (M, L), some e =>
      let num : ℕ := M * 10 ^ e.toNat
      let den : ℕ := 10 ^ (L + (-e).toNat)
      if floatOverflowNat * den ≤ num then
        some (if neg then PyFloat.negInf else PyFloat.inf)
      else
        some (PyFloat.finite (mkRat (if neg then -(num : ℤ) else (num : ℤ)) den))
    | _, _ => none

/-- InputValidator.validate_number (calculator.py:73-95): strip the
input, convert with `float`, reject the IEEE specials, and report any
failure as a ValueError quoting the original text. -/
def validate_number (value : String) : Except PyErr ℚ :=
  match pyFloatOfString (pyStrip value) with
  | none => Except.error (PyErr.valueError ("'" ++ value ++ "' is not a valid number"))
  | some result =>
    if pyFloatEq result PyFloat.inf || pyFloatEq result PyFloat.negInf
        || !pyFloatEq result result then
      Except.error (PyErr.valueError ("'" ++ value ++ "' is not a valid number"))
    else
      match result with
      | PyFloat.finite q => Except.ok q
      | _ => Except.error (PyErr.valueError ("'" ++ value ++ "' is not a valid number"))

/-- Python objects that can appear as factory operands: the numeric tower
fragment the calculator cares about plus the non-numeric examples from
the spec.  In Python, `bool` is a subclass of `int`, so
`isinstance(True, (int, float))` holds. -/
inductive PyValue where
  | int (n : ℤ)
  | float (q : ℚ)
  | bool (b : Bool)
  | str (s : String)
  | pyNone
  | list (n : Nat)
deriving DecidableEq, Repr

/-- Python `isinstance(v, (int, float))`: true for int, float, and bool
(bool subclasses int). -/
def PyValue.isNumeric : PyValue → Bool
  | PyValue.int _ => true
  | PyValue.float _ => true
  | PyValue.bool _ => true
  | _ => false

/-- Python `type(v).__name__` for the modelled values. -/
def PyValue.typeName : PyValue → String
  | PyValue.int _ => "int"
  | PyValue.float _ => "float"
  | PyValue.bool _ => "bool"
  | PyValue.str _ => "str"
  | PyValue.pyNone => "NoneType"
  | PyValue.list _ => "list"

/-- Python `float(v)` on a numeric value (booleans coerce to 1.0/0.0). -/
def PyValue.toFloat : PyValue → ℚ
  | PyValue.int n => (n : ℚ)
  | PyValue.float q => q
  | PyValue.bool b => if b then 1 else 0
  | _ => 0

/-- A Python object as seen through the factory's duck-typed capability
checks: it may or may not expose a `compute` method and a `symbol`
attribute (operations.py:8-42).  The four concrete operations have both. -/
structure Operation where
  computeAttr : Option (ℚ → ℚ → Except PyErr ℚ)
  symbolAttr : Option String

/-- Addition.compute (operations.py:53-64): `a + b`. -/
def Addition.compute (a b : ℚ) : Except PyErr ℚ := Except.ok (a + b)

/-- Subtraction.compute (operations.py:75-86): `a - b`. -/
def Subtraction.compute (a b : ℚ) : Except PyErr ℚ := Except.ok (a - b)

/-- Multiplication.compute (operations.py:97-108): `a * b`. -/
def Multiplication.compute (a b : ℚ) : Except PyErr ℚ := Except.ok (a * b)

/-- Python's primitive `a / b` on floats: raises ZeroDivisionError when
the divisor is zero. -/
def pyDiv (a b : ℚ) : Except PyErr ℚ :=
  if b = 0 then Except.error (PyErr.zeroDivisionError "float division by zero")
  else Except.ok (a / b)

/-- Division.compute (operations.py:119-137): try `a / b`, re-raising a
ZeroDivisionError with the message "Cannot divide by zero". -/
def Division.compute (a b : ℚ) : Except PyErr ℚ :=
  match pyDiv a b with
  | Except.ok r => Except.ok r
  | Except.error _ => Except.error (PyErr.zeroDivisionError "Cannot divide by zero")

/-- Singleton instance `_addition` (operations.py:141). -/
def _addition : Operation := ⟨some Addition.compute, some "+"⟩

/-- Singleton instance `_subtraction` (operations.py:142). -/
def _subtraction : Operation := ⟨some Subtraction.compute, some "-"⟩

/-- Singleton instance `_multiplication` (operations.py:143). -/
def _multiplication : Operation := ⟨some Multiplication.compute, some "*"⟩

/-- Singleton instance `_division` (operations.py:144). -/
def _division : Operation := ⟨some Division.compute, some "/"⟩

/-- The OPERATIONS registry (operations.py:147-163), in source order:
each alias maps to the shared singleton instance of its operation. -/
def OPERATIONS : List (String × Operation) :=
  [("+", _addition), ("add", _addition), ("addition", _addition),
   ("-", _subtraction), ("sub", _subtraction), ("subtract", _subtraction),
   ("subtraction", _subtraction),
   ("*", _multiplication), ("mul", _multiplication),
   ("multiply", _multiplication), ("multiplication", _multiplication),
   ("/", _division), ("div", _division), ("divide", _division),
   ("division", _division)]

/-- Dictionary key membership `s in OPERATIONS`. -/
def opsContains (s : String) : Bool :=
  (OPERATIONS.map Prod.fst).contains s

/-- Dictionary subscript `OPERATIONS[s]` as a partial lookup. -/
def opsGet (s : String) : Option Operation :=
  OPERATIONS.lookup s

/-- InputValidator.validate_operation (calculator.py:97-109):
`operation.lower().strip() in OPERATIONS`. -/
def validate_operation (operation : String) : Bool :=
  opsContains (pyStrip (pyLower operation))

/-- InputValidator.validate_command (calculator.py:111-123):
membership of `command.lower().strip()` in the fixed command set. -/
def validate_command (command : String) : Bool :=
  (pyStrip (pyLower command)) ∈ ["help", "history", "exit", "quit", "clear"]

/-- Calculation (calculation.py:8-41): two float operands, the operation
object, and the lazily-filled result cache `_result`. -/
structure Calculation where
  operand_a : ℚ
  operand_b : ℚ
  operation : Operation
  _result : Option ℚ

/-- Calculation.result (calculation.py:31-41): compute and cache on
first access, return the cache afterwards.  Mutation of `_result` is
made explicit by returning the updated object; a missing `compute`
attribute would surface as an AttributeError. -/
def Calculation.result (c : Calculation) : Except PyErr (ℚ × Calculation) :=
  match c._result with
  | some v => Except.ok (v, c)
  | none =>
    match c.operation.computeAttr with
    | none => Except.error (PyErr.attributeError "no attribute 'compute'")
    | some f =>
      match f c.operand_a c.operand_b with
      | Except.error e => Except.error e
      | Except.ok v => Except.ok (v, { c with _result := some v })

/-- CalculationFactory.create_calculation (calculation.py:72-102):
LBYL validation of the operand types and of the operation's duck-typed
capabilities, then construction with operands coerced to float and no
result computed. -/
def create_calculation (operand_a operand_b : PyValue) (operation : Operation) :
    Except PyErr Calculation :=
  if !operand_a.isNumeric then
    Except.error (PyErr.typeError
      ("First operand must be a number, got " ++ operand_a.typeName))
  else if !operand_b.isNumeric then
    Except.error (PyErr.typeError
      ("Second operand must be a number, got " ++ operand_b.typeName))
  else if operation.computeAttr.isNone then
    Except.error (PyErr.typeError "Operation must have a 'compute' method")
  else if operation.symbolAttr.isNone then
    Except.error (PyErr.typeError "Operation must have a 'symbol' attribute")
  else
    Except.ok ⟨operand_a.toFloat, operand_b.toFloat, operation, none⟩

/-- CalculationHistory (calculator.py:11-62), value-level view used by
the REPL model: the ordered internal list.  (Object identity of the
copy returned by get_history is studied separately in `ObjModel`.) -/
structure CalculationHistory where
  _history : List Calculation

/-- CalculationHistory.add_calculation (calculator.py:23-32) on an
argument that is statically a Calculation: the isinstance check passes
and the calculation is appended. -/
def CalculationHistory.add_calculation (h : CalculationHistory)
    (calculation : Calculation) : CalculationHistory :=
  ⟨h._history ++ [calculation]⟩

/-- CalculationHistory.get_history (calculator.py:34-41): the contents
of the defensive copy. -/
def CalculationHistory.get_history (h : CalculationHistory) : List Calculation :=
  h._history

/-- CalculationHistory.clear_history (calculator.py:52-54). -/
def CalculationHistory.clear_history (_h : CalculationHistory) : CalculationHistory :=
  ⟨[]⟩

/-- CalculationHistory.__bool__ (calculator.py:60-62). -/
def CalculationHistory.toBool (h : CalculationHistory) : Bool :=
  !h._history.isEmpty

/-- One print event of a REPL iteration.  Static text blocks are single
events; events with dynamic content carry that content. -/
inductive Output where
  | goodbye
  | helpText
  | noHistory
  | historyDisplay (entries : List Calculation)
  | historyCleared
  | resultLine (c : Calculation)
  | inputError (msg : String)
  | mathError (msg : String)
  | calculationError (msg : String)
  | genericError (msg : String)

/-- Calculator state (calculator.py:134-138): the owned history and the
`running` flag. -/
structure CalculatorState where
  history : CalculationHistory
  running : Bool

/-- Calculator._is_command (calculator.py:185-195): validate the first
whitespace-delimited token as a command.  (On the empty string, where
`split()[0]` would fail, the model answers `false`; `run` only calls
this on non-empty input.) -/
def _is_command (user_input : String) : Bool :=
  match (pySplitWS user_input).head? with
  | some tok => validate_command tok
  | none => false

/-- Calculator._display_history (calculator.py:234-245): the no-history
notice, or the ordered log obtained from get_history. -/
def _display_history (st : CalculatorState) : List Output :=
  if !st.history.toBool then [Output.noHistory]
  else [Output.historyDisplay st.history.get_history]

/-- Calculator._handle_command (calculator.py:197-212): dispatch on the
(already lowered) full command string; an unmatched string falls
through every branch and does nothing. -/
def _handle_command (st : CalculatorState) (command : String) :
    CalculatorState × List Output :=
  if command = "exit" ∨ command = "quit" then
    ({ st with running := false }, [Output.goodbye])
  else if command = "help" then (st, [Output.helpText])
  else if command = "history" then (st, _display_history st)
  else if command = "clear" then
    ({ st with history := st.history.clear_history }, [Output.historyCleared])
  else (st, [])

/-- Insertion into a ≤-sorted list of strings, for Python `sorted`. -/
def insertStr (s : String) : List String → List String
  | [] => [s]
  | t :: ts => if s ≤ t then s :: t :: ts else t :: insertStr s ts

/-- Python `sorted` on a list of strings (code-point lexicographic). -/
def sortedStrs (l : List String) : List String :=
  l.foldr insertStr []

/-- The "Available: ..." tail of the unsupported-operation message
(calculator.py:300-302): the sorted registry keys joined by ", ". -/
def availableOpsText : String :=
  String.intercalate ", " (sortedStrs (OPERATIONS.map Prod.fst))

/-- Calculator._parse_input (calculator.py:274-304): exactly three
whitespace-delimited tokens, both operands validated as numbers, the
operator validated against the registry; returns the parsed operands
and the lowered operator string. -/
def _parse_input (user_input : String) : Except PyErr (ℚ × String × ℚ) :=
  match pySplitWS user_input with
  | [operand_a_str, operation_str, operand_b_str] =>
    match validate_number operand_a_str with
    | Except.error e => Except.error e
    | Except.ok operand_a =>
      match validate_number operand_b_str with
      | Except.error e => Except.error e
      | Except.ok operand_b =>
        if !validate_operation operation_str then
          Except.error (PyErr.valueError
            ("Unsupported operation: " ++ operation_str ++ ". Available: "
              ++ availableOpsText))
        else Except.ok (operand_a, pyLower operation_str, operand_b)
  | _ =>
    Except.error (PyErr.valueError
      "Please provide exactly three parts: number operation number")

/-- Message text of a PyErr, as Python `str(e)` for these exceptions. -/
def PyErr.message : PyErr → String
  | PyErr.typeError m => m
  | PyErr.valueError m => m
  | PyErr.zeroDivisionError m => m
  | PyErr.attributeError m => m
  | PyErr.keyError m => m

/-- Calculator._perform_calculation (calculator.py:306-329): registry
lookup, factory construction, forced computation; a ZeroDivisionError
becomes a math-error report and no calculation, any other exception a
calculation-error report and no calculation. -/
def _perform_calculation (operand_a : ℚ) (operation_str : String)
    (operand_b : ℚ) : Option Calculation × List Output :=
  match opsGet operation_str with
  | none =>
    (none, [Output.calculationError ("'" ++ operation_str ++ "'")])
  | some operation =>
    match create_calculation (PyValue.float operand_a) (PyValue.float operand_b)
        operation with
    | Except.error e => (none, [Output.calculationError e.message])
    | Except.ok calculation =>
      match calculation.result with
      | Except.error (PyErr.zeroDivisionError m) => (none, [Output.mathError m])
      | Except.error e => (none, [Output.calculationError e.message])
      | Except.ok (_, calculation') => (some calculation', [])

/-- Calculator._handle_calculation_input (calculator.py:252-272): parse
and perform; on success append to history and print the result; a
ValueError becomes an input-error report; the history and the running
flag are untouched on every error path. -/
def _handle_calculation_input (st : CalculatorState) (user_input : String) :
    CalculatorState × List Output :=
  match _parse_input user_input with
  | Except.error (PyErr.valueError m) => (st, [Output.inputError m])
  | Except.error e => (st, [Output.genericError e.message])
  | Except.ok (operand_a, operation_str, operand_b) =>
    match _perform_calculation operand_a operation_str operand_b with
    | (some calculation, _) =>
      ({ st with history := st.history.add_calculation calculation },
       [Output.resultLine calculation])
    | (none, outs) => (st, outs)

/-- One iteration of Calculator.run (calculator.py:150-164): strip the
raw line; skip it when empty; dispatch commands; otherwise treat it as
a calculation request. -/
def processLine (st : CalculatorState) (raw : String) :
    CalculatorState × List Output :=
  let user_input := pyStrip raw
  if user_input = "" then (st, [])
  else if _is_command user_input then _handle_command st (pyLower user_input)
  else _handle_calculation_input st user_input

namespace ObjModel

/-- Reference to an object in the modelled Python heap. -/
abbrev Ref := Nat

/-- The fragment of the Python heap the history claims need: list
objects (holding references to Calculation objects) and the Calculation
objects themselves, each addressed by its index. -/
structure PyHeap where
  lists : List (List Ref)
  calcs : List Calculation

/-- Contents of the list object behind a reference. -/
def PyHeap.getList (h : PyHeap) (r : Ref) : List Ref :=
  (h.lists.get? r).getD []

/-- In-place mutation of a list object: any append / remove / reorder a
caller performs on a list it holds is some replacement of its contents. -/
def PyHeap.setList (h : PyHeap) (r : Ref) (l : List Ref) : PyHeap :=
  { h with lists := h.lists.set r l }

/-- Allocation of a fresh list object with the given contents. -/
def PyHeap.allocList (h : PyHeap) (l : List Ref) : Ref × PyHeap :=
  (h.lists.length, { h with lists := h.lists ++ [l] })

/-- The Calculation object behind a reference. -/
def PyHeap.getCalc? (h : PyHeap) (r : Ref) : Option Calculation :=
  h.calcs.get? r

/-- In-place mutation of one field of a Calculation object: overwrite
its `_result` cache. -/
def PyHeap.setCalcResult (h : PyHeap) (r : Ref) (v : ℚ) : PyHeap :=
  match h.calcs.get? r with
  | some c => { h with calcs := h.calcs.set r { c with _result := some v } }
  | none => h

/-- An argument passed to add_calculation: either a reference to an
object of class Calculation, or any other value (which the isinstance
check rejects). -/
inductive PyObj where
  | calcRef (r : Ref)
  | other (v : PyValue)

/-- CalculationHistory with object identity: the instance holds a
reference to its private list object `_history`. -/
structure CalculationHistory where
  _history : Ref

/-- CalculationHistory.__init__ (calculator.py:19-21): allocate a fresh
empty list object. -/
def init (h : PyHeap) : CalculationHistory × PyHeap :=
  let p := h.allocList []
  (⟨p.1⟩, p.2)

/-- CalculationHistory.add_calculation (calculator.py:23-32): reject a
non-Calculation argument with a TypeError before touching the heap,
otherwise append the reference to the internal list object. -/
def add_calculation (self : CalculationHistory) (calculation : PyObj)
    (h : PyHeap) : PyHeap × Option PyErr :=
  match calculation with
  | PyObj.other _ =>
    (h, some (PyErr.typeError "Must provide a Calculation instance"))
  | PyObj.calcRef r =>
    (h.setList self._history (h.getList self._history ++ [r]), none)

/-- CalculationHistory.get_history (calculator.py:34-41):
`self._history.copy()` — allocate a NEW list object whose contents are
the same element references (a shallow copy). -/
def get_history (self : CalculationHistory) (h : PyHeap) : Ref × PyHeap :=
  h.allocList (h.getList self._history)

/-- N successful add_calculation calls in sequence. -/
def addAll (self : CalculationHistory) (rs : List Ref) (h : PyHeap) : PyHeap :=
  rs.foldl (fun hh r => (add_calculation self (PyObj.calcRef r) hh).1) h

end ObjModel

/-- Value of `l.get? i` after setting index `i`, when `i` is in range. -/
theorem listGet?_set_self {α : Type} (l : List α) (i : Nat) (a : α)
    (h : i < l.length) : (l.set i a).get? i = some a := by
  induction l generalizing i with
  | nil => simp at h
  | cons x xs ih =>
    cases i with
    | zero => rfl
    | succ n => simpa using ih n (by simpa using h)

/-- Setting one index leaves every other index unchanged. -/
theorem listGet?_set_ne {α : Type} (l : List α) (i j : Nat) (a : α)
    (h : i ≠ j) : (l.set i a).get? j = l.get? j := by
  induction l generalizing i j with
  | nil => rfl
  | cons x xs ih =>
    cases i with
    | zero =>
      cases j with
      | zero => exact absurd rfl h
      | succ m => rfl
    | succ n =>
      cases j with
      | zero => rfl
      | succ m => simpa using ih n m (by omega)

/-- Appending on the right does not change indices inside the prefix. -/
theorem listGet?_append_left {α : Type} (l l2 : List α) (j : Nat)
    (h : j < l.length) : (l ++ l2).get? j = l.get? j := by
  induction l generalizing j with
  | nil => simp at h
  | cons x xs ih =>
    cases j with
    | zero => rfl
    | succ n => simpa using ih n (by simpa using h)

/-- The element freshly appended at position `l.length`. -/
theorem listGet?_append_self {α : Type} (l : List α) (x : α) :
    (l ++ [x]).get? l.length = some x := by
  induction l with
  | nil => rfl
  | cons y ys ih => simp [ih]

/-- C3: Division.compute signals a ZeroDivisionError exactly when the
divisor is zero (for every finite dividend, zero included); when the
divisor is non-zero it returns the quotient, and in the error case no
partial result is produced (the outcome is the bare error). -/
theorem claimC3_division_zero_iff (a b : ℚ) :
    ((∃ m, Division.compute a b = Except.error (PyErr.zeroDivisionError m)) ↔ b = 0)
    ∧ (b = 0 →
        Division.compute a b
          = Except.error (PyErr.zeroDivisionError "Cannot divide by zero"))
    ∧ (b ≠ 0 → Division.compute a b = Except.ok (a / b)) := by
  unfold Division.compute pyDiv
  by_cases hb : b = 0 <;> simp [hb]

/-- Witness for C3 at the concrete inputs 5 / 0 and 5 / 2. -/
theorem claimC3_division_zero_iff_witness :
    Division.compute 5 0 = Except.error (PyErr.zeroDivisionError "Cannot divide by zero")
    ∧ Division.compute 5 2 = Except.ok ((5 : ℚ) / 2) :=
  ⟨(claimC3_division_zero_iff 5 0).2.1 rfl,
   (claimC3_division_zero_iff 5 2).2.2 (by norm_num)⟩

/-- C4: on a Calculation whose cache is empty and whose operation
computes successfully, the first read of `result` invokes compute and
fills the cache; a read on the cached object returns the same value
with no further change, and it still does so after the operation object
is replaced by an arbitrary other operation. -/
theorem claimC4_result_memoized (c : Calculation)
    (f : ℚ → ℚ → Except PyErr ℚ) (v : ℚ)
    (hcache : c._result = none)
    (hf : c.operation.computeAttr = some f)
    (hok : f c.operand_a c.operand_b = Except.ok v) :
    c.result = Except.ok (v, { c with _result := some v })
    ∧ ({ c with _result := some v } : Calculation).result
        = Except.ok (v, { c with _result := some v })
    ∧ ∀ op2 : Operation,
        ({ c with _result := some v, operation := op2 } : Calculation).result
          = Except.ok (v, { c with _result := some v, operation := op2 }) := by
  refine ⟨?_, rfl, fun op2 => rfl⟩
  simp [Calculation.result, hcache, hf, hok]

/-- Witness for C4 at the calculation 5 + 3. -/
theorem claimC4_result_memoized_witness :
    (⟨5, 3, _addition, none⟩ : Calculation).result
      = Except.ok (8, ⟨5, 3, _addition, some 8⟩)
    ∧ (⟨5, 3, _addition, some 8⟩ : Calculation).result
      = Except.ok (8, ⟨5, 3, _addition, some 8⟩)
    ∧ (⟨5, 3, ⟨none, none⟩, some 8⟩ : Calculation).result
      = Except.ok (8, ⟨5, 3, ⟨none, none⟩, some 8⟩) := by
  obtain ⟨h1, h2, h3⟩ :=
    claimC4_result_memoized ⟨5, 3, _addition, none⟩ Addition.compute 8 rfl rfl
      (by unfold Addition.compute; norm_num)
  exact ⟨h1, h2, h3 ⟨none, none⟩⟩

/-- C5: validate_number has exactly two outcomes.  Either the stripped
input parses (via the float builtin model) to a finite value, which is
returned, or — on parse failure or a special value (inf, -inf, nan) —
it raises a ValueError whose message quotes the original, untrimmed
input text. -/
theorem claimC5_validate_number_outcomes (s : String) :
    (∃ q : ℚ, pyFloatOfString (pyStrip s) = some (PyFloat.finite q)
        ∧ validate_number s = Except.ok q)
    ∨ (validate_number s
        = Except.error (PyErr.valueError ("'" ++ s ++ "' is not a valid number"))
      ∧ (pyFloatOfString (pyStrip s) = none
          ∨ pyFloatOfString (pyStrip s) = some PyFloat.inf
          ∨ pyFloatOfString (pyStrip s) = some PyFloat.negInf
          ∨ pyFloatOfString (pyStrip s) = some PyFloat.nan)) := by
  unfold validate_number
  cases hp : pyFloatOfString (pyStrip s) with
  | none => right; simp
  | some r =>
    cases r with
    | finite q => left; exact ⟨q, rfl, by simp [pyFloatEq]⟩
    | inf => right; simp [pyFloatEq]
    | negInf => right; simp [pyFloatEq]
    | nan => right; simp [pyFloatEq]

/-- C6: the factory rejects a non-numeric first or second operand with
a TypeError naming the offending operand and its actual type name,
rejects an operation missing the compute method or the symbol attribute
with a TypeError naming the missing capability, and otherwise returns a
new Calculation with both operands coerced to float and no result
computed yet. -/
theorem claimC6_factory_validation (a b : PyValue) (op : Operation) :
    (a.isNumeric = false →
      create_calculation a b op = Except.error (PyErr.typeError
        ("First operand must be a number, got " ++ a.typeName)))
    ∧ (a.isNumeric = true → b.isNumeric = false →
      create_calculation a b op = Except.error (PyErr.typeError
        ("Second operand must be a number, got " ++ b.typeName)))
    ∧ (a.isNumeric = true → b.isNumeric = true → op.computeAttr = none →
      create_calculation a b op
        = Except.error (PyErr.typeError "Operation must have a 'compute' method"))
    ∧ (a.isNumeric = true → b.isNumeric = true →
        op.computeAttr.isSome = true → op.symbolAttr = none →
      create_calculation a b op
        = Except.error (PyErr.typeError "Operation must have a 'symbol' attribute"))
    ∧ (a.isNumeric = true → b.isNumeric = true →
        op.computeAttr.isSome = true → op.symbolAttr.isSome = true →
      create_calculation a b op = Except.ok ⟨a.toFloat, b.toFloat, op, none⟩) := by
  refine ⟨fun h1 => ?_, fun h1 h2 => ?_, fun h1 h2 h3 => ?_,
    fun h1 h2 h3 h4 => ?_, fun h1 h2 h3 h4 => ?_⟩
  · simp [create_calculation, h1]
  · simp [create_calculation, h1, h2]
  · simp [create_calculation, h1, h2, h3]
  · obtain ⟨f, hf⟩ := Option.isSome_iff_exists.mp h3
    simp [create_calculation, h1, h2, hf, h4]
  · obtain ⟨f, hf⟩ := Option.isSome_iff_exists.mp h3
    obtain ⟨sy, hs⟩ := Option.isSome_iff_exists.mp h4
    simp [create_calculation, h1, h2, hf, hs]

/-- Witness for C6: a string first operand, a None second operand, an
operation without compute, one without symbol, and a successful
construction from int operands. -/
theorem claimC6_factory_validation_witness :
    create_calculation (PyValue.str "x") (PyValue.int 2) _addition
      = Except.error (PyErr.typeError "First operand must be a number, got str")
    ∧ create_calculation (PyValue.int 2) PyValue.pyNone _addition
      = Except.error (PyErr.typeError "Second operand must be a number, got NoneType")
    ∧ create_calculation (PyValue.int 2) (PyValue.int 3) ⟨none, some "+"⟩
      = Except.error (PyErr.typeError "Operation must have a 'compute' method")
    ∧ create_calculation (PyValue.int 2) (PyValue.int 3) ⟨some Addition.compute, none⟩
      = Except.error (PyErr.typeError "Operation must have a 'symbol' attribute")
    ∧ create_calculation (PyValue.int 2) (PyValue.int 3) _addition
      = Except.ok ⟨2, 3, _addition, none⟩ :=
  ⟨(claimC6_factory_validation (PyValue.str "x") (PyValue.int 2) _addition).1 rfl,
   (claimC6_factory_validation (PyValue.int 2) PyValue.pyNone _addition).2.1 rfl rfl,
   (claimC6_factory_validation (PyValue.int 2) (PyValue.int 3)
      ⟨none, some "+"⟩).2.2.1 rfl rfl rfl,
   (claimC6_factory_validation (PyValue.int 2) (PyValue.int 3)
      ⟨some Addition.compute, none⟩).2.2.2.1 rfl rfl rfl rfl,
   (claimC6_factory_validation (PyValue.int 2) (PyValue.int 3)
      _addition).2.2.2.2 rfl rfl rfl rfl⟩

/-- C9: Python booleans pass the factory's isinstance((int, float))
check because bool subclasses int, so create_calculation(True, False,
op) succeeds and the operands are coerced to the floats 1.0 and 0.0. -/
theorem claimC9_bool_operands_accepted (op : Operation)
    (hc : op.computeAttr.isSome = true) (hs : op.symbolAttr.isSome = true) :
    PyValue.isNumeric (PyValue.bool true) = true
    ∧ PyValue.isNumeric (PyValue.bool false) = true
    ∧ create_calculation (PyValue.bool true) (PyValue.bool false) op
        = Except.ok ⟨1, 0, op, none⟩ := by
  obtain ⟨f, hf⟩ := Option.isSome_iff_exists.mp hc
  obtain ⟨sy, hsy⟩ := Option.isSome_iff_exists.mp hs
  exact ⟨rfl, rfl,
    by simp [create_calculation, hf, hsy, PyValue.toFloat, PyValue.isNumeric]⟩

/-- Witness for C9 with the addition singleton. -/
theorem claimC9_bool_operands_accepted_witness :
    create_calculation (PyValue.bool true) (PyValue.bool false) _addition
      = Except.ok ⟨1, 0, _addition, none⟩ :=
  (claimC9_bool_operands_accepted _addition rfl rfl).2.2

/-- C1 fails as stated: the line "exit now" has the known command
`exit` as its first whitespace-delimited token, yet the Calculator does
not dispatch it — `_handle_command` receives the whole lowered line,
matches no branch, and the iteration ends with no output, the running
flag still true and the history untouched. -/
theorem claimC1_counterexample :
    processLine ⟨⟨[]⟩, true⟩ "exit now" = (⟨⟨[]⟩, true⟩, ([] : List Output))
    ∧ (processLine ⟨⟨[]⟩, true⟩ "exit now").1.running = true :=
  ⟨rfl, rfl⟩

/-- C1 (amended): a non-empty line whose first whitespace-delimited
token is a known command is always routed to the command handler, but
the handler dispatches only when the whole lowered line equals the
command: then help prints usage, history prints the log or the
no-calculations notice, clear empties the history and confirms, and
exit/quit emit the farewell and set running to false; a line whose
first token is a command but which contains further tokens is consumed
with no output and no state change. -/
theorem claimC1_command_dispatch (st : CalculatorState) (raw : String)
    (hne : pyStrip raw ≠ "")
    (hcmd : _is_command (pyStrip raw) = true) :
    (pyLower (pyStrip raw) = "exit" ∨ pyLower (pyStrip raw) = "quit" →
      processLine st raw = ({ st with running := false }, [Output.goodbye]))
    ∧ (pyLower (pyStrip raw) = "help" →
      processLine st raw = (st, [Output.helpText]))
    ∧ (pyLower (pyStrip raw) = "history" →
      processLine st raw
        = (st, if st.history.toBool
            then [Output.historyDisplay st.history.get_history]
            else [Output.noHistory]))
    ∧ (pyLower (pyStrip raw) = "clear" →
      processLine st raw = ({ st with history := ⟨[]⟩ }, [Output.historyCleared]))
    ∧ (pyLower (pyStrip raw) ≠ "exit" → pyLower (pyStrip raw) ≠ "quit" →
        pyLower (pyStrip raw) ≠ "help" → pyLower (pyStrip raw) ≠ "history" →
        pyLower (pyStrip raw) ≠ "clear" →
      processLine st raw = (st, [])) := by
  have hroute : processLine st raw = _handle_command st (pyLower (pyStrip raw)) := by
    simp only [processLine]
    rw [if_neg hne, if_pos hcmd]
  refine ⟨fun h => ?_, fun h => ?_, fun h => ?_, fun h => ?_,
    fun h1 h2 h3 h4 h5 => ?_⟩
  · rw [hroute]; simp only [_handle_command]; rw [if_pos h]
  · rw [hroute]
    rcases h with h
    simp [_handle_command, h]
  · rw [hroute]
    simp only [_handle_command, _display_history, h]
    norm_num
    cases hb : st.history.toBool <;> simp [hb, CalculationHistory.clear_history]
  · rw [hroute]
    simp [_handle_command, h, CalculationHistory.clear_history]
  · rw [hroute]
    simp [_handle_command, h1, h2, h3, h4, h5]

/-- Witness for C1 (amended) at the single-token line "exit". -/
theorem claimC1_command_dispatch_witness :
    processLine ⟨⟨[]⟩, true⟩ "exit" = (⟨⟨[]⟩, false⟩, [Output.goodbye]) :=
  (claimC1_command_dispatch ⟨⟨[]⟩, true⟩ "exit" (by decide) rfl).1 (Or.inl rfl)

/-- C2: on a calculation line that parses and validates but whose
computation raises ZeroDivisionError, the Calculator reports a math
error and changes nothing: the state after the iteration (history
included) is identical to the state before, and the only output is the
math-error message — the calculation is not appended. -/
theorem claimC2_divzero_discarded (st : CalculatorState) (raw sa sop sb : String)
    (qa qb : ℚ) (op : Operation) (f : ℚ → ℚ → Except PyErr ℚ) (m : String)
    (hne : pyStrip raw ≠ "")
    (hnc : _is_command (pyStrip raw) = false)
    (htok : pySplitWS (pyStrip raw) = [sa, sop, sb])
    (ha : validate_number sa = Except.ok qa)
    (hb : validate_number sb = Except.ok qb)
    (hvo : validate_operation sop = true)
    (hlk : opsGet (pyLower sop) = some op)
    (hcf : op.computeAttr = some f)
    (hsym : op.symbolAttr.isSome = true)
    (hdz : f qa qb = Except.error (PyErr.zeroDivisionError m)) :
    processLine st raw = (st, [Output.mathError m]) := by
  obtain ⟨sy, hsy⟩ := Option.isSome_iff_exists.mp hsym
  have hroute : processLine st raw = _handle_calculation_input st (pyStrip raw) := by
    simp only [processLine]
    rw [if_neg hne, if_neg (by simp [hnc])]
  have hparse : _parse_input (pyStrip raw) = Except.ok (qa, pyLower sop, qb) := by
    unfold _parse_input
    rw [htok]
    simp [ha, hb, hvo]
  have hcc : create_calculation (PyValue.float qa) (PyValue.float qb) op
      = Except.ok ⟨qa, qb, op, none⟩ := by
    simp [create_calculation, PyValue.isNumeric, hcf, hsy, PyValue.toFloat]
  have hres : (⟨qa, qb, op, none⟩ : Calculation).result
      = Except.error (PyErr.zeroDivisionError m) := by
    simp [Calculation.result, hcf, hdz]
  have hperform : _perform_calculation qa (pyLower sop) qb
      = (none, [Output.mathError m]) := by
    unfold _perform_calculation
    simp [hlk, hcc, hres]
  rw [hroute]
  unfold _handle_calculation_input
  simp [hparse, hperform]

/-- Witness for C2 at the scenario input "5 / 0". -/
theorem claimC2_divzero_discarded_witness :
    processLine ⟨⟨[]⟩, true⟩ "5 / 0"
      = (⟨⟨[]⟩, true⟩, [Output.mathError "Cannot divide by zero"]) :=
  claimC2_divzero_discarded ⟨⟨[]⟩, true⟩ "5 / 0" "5" "/" "0" 5 0 _division
    Division.compute "Cannot divide by zero" (by decide) rfl rfl rfl rfl rfl rfl
    rfl rfl rfl

/-- Key membership in an association list coincides with a successful
lookup (the dictionary `in` test versus subscripting). -/
theorem contains_map_fst_eq_lookup_isSome {β : Type} (l : List (String × β))
    (s : String) : ((l.map Prod.fst).contains s) = (l.lookup s).isSome := by
  induction l with
  | nil => rfl
  | cons p t ih =>
    obtain ⟨k, v⟩ := p
    simp only [List.map_cons, List.lookup]
    rw [show ((k :: List.map Prod.fst t).contains s)
          = (s == k || (List.map Prod.fst t).contains s) from rfl]
    cases hbeq : (s == k) with
    | true => rfl
    | false => exact ih

/-- C8: aliases of the same operation resolve to the same registry
entry (so compute agrees whichever alias selected it); operation lookup
is exact-match membership after lower-casing and stripping; and a line
with an unknown operator alias is answered with the unsupported-
operation message listing the valid aliases, with no state change and
no crash. -/
theorem claimC8_registry_aliases :
    (∀ s1 s2, s1 ∈ ["+", "add", "addition"] → s2 ∈ ["+", "add", "addition"] →
      opsGet s1 = opsGet s2)
    ∧ (∀ s1 s2, s1 ∈ ["-", "sub", "subtract", "subtraction"] →
        s2 ∈ ["-", "sub", "subtract", "subtraction"] → opsGet s1 = opsGet s2)
    ∧ (∀ s1 s2, s1 ∈ ["*", "mul", "multiply", "multiplication"] →
        s2 ∈ ["*", "mul", "multiply", "multiplication"] → opsGet s1 = opsGet s2)
    ∧ (∀ s1 s2, s1 ∈ ["/", "div", "divide", "division"] →
        s2 ∈ ["/", "div", "divide", "division"] → opsGet s1 = opsGet s2)
    ∧ (∀ s, validate_operation s = (opsGet (pyStrip (pyLower s))).isSome)
    ∧ (∀ (st : CalculatorState) (raw sa sop sb : String) (qa qb : ℚ),
        pyStrip raw ≠ "" → _is_command (pyStrip raw) = false →
        pySplitWS (pyStrip raw) = [sa, sop, sb] →
        validate_number sa = Except.ok qa →
        validate_number sb = Except.ok qb →
        validate_operation sop = false →
        processLine st raw = (st, [Output.inputError
          ("Unsupported operation: " ++ sop ++ ". Available: "
            ++ availableOpsText)])) := by
  refine ⟨?_, ?_, ?_, ?_, ?_, ?_⟩
  · intro s1 s2 h1 h2; fin_cases h1 <;> fin_cases h2 <;> rfl
  · intro s1 s2 h1 h2; fin_cases h1 <;> fin_cases h2 <;> rfl
  · intro s1 s2 h1 h2; fin_cases h1 <;> fin_cases h2 <;> rfl
  · intro s1 s2 h1 h2; fin_cases h1 <;> fin_cases h2 <;> rfl
  · intro s
    rw [validate_operation, opsContains, opsGet,
      contains_map_fst_eq_lookup_isSome]
  · intro st raw sa sop sb qa qb hne hnc htok ha hb hvo
    have hroute : processLine st raw = _handle_calculation_input st (pyStrip raw) := by
      simp only [processLine]
      rw [if_neg hne, if_neg (by simp [hnc])]
    have hparse : _parse_input (pyStrip raw) = Except.error (PyErr.valueError
        ("Unsupported operation: " ++ sop ++ ". Available: "
          ++ availableOpsText)) := by
      unfold _parse_input
      rw [htok]
      simp [ha, hb, hvo]
    rw [hroute]
    unfold _handle_calculation_input
    simp [hparse]

/-- Witness for C8: the aliases "+" and "add" resolve identically, a
padded upper-case alias validates, and the scenario line "5 %% 3" is
answered with the unsupported-operation message. -/
theorem claimC8_registry_aliases_witness :
    opsGet "+" = opsGet "add"
    ∧ validate_operation " ADD " = true
    ∧ processLine ⟨⟨[]⟩, true⟩ "5 %% 3"
        = (⟨⟨[]⟩, true⟩, [Output.inputError
            ("Unsupported operation: " ++ "%%" ++ ". Available: "
              ++ availableOpsText)]) := by
  refine ⟨?_, ?_, ?_⟩
  · exact claimC8_registry_aliases.1 "+" "add" (by simp) (by simp)
  · rw [claimC8_registry_aliases.2.2.2.2.1 " ADD "]; rfl
  · exact claimC8_registry_aliases.2.2.2.2.2 ⟨⟨[]⟩, true⟩ "5 %% 3" "5" "%%" "3"
      5 3 (by decide) rfl rfl rfl rfl rfl

/-- Effect of a successful run of add_calculation calls: the internal
list object accumulates the appended references in order, no list
object is created or destroyed, and the Calculation heap is untouched. -/
theorem ObjModel.addAll_spec (rs : List ObjModel.Ref)
    (self : ObjModel.CalculationHistory) :
    ∀ h : ObjModel.PyHeap, self._history < h.lists.length →
      (ObjModel.addAll self rs h).getList self._history
          = h.getList self._history ++ rs
      ∧ (ObjModel.addAll self rs h).lists.length = h.lists.length
      ∧ (ObjModel.addAll self rs h).calcs = h.calcs := by
  induction rs with
  | nil => intro h hlt; simp [ObjModel.addAll]
  | cons r rest ih =>
    intro h hlt
    have hstep : ObjModel.addAll self (r :: rest) h
        = ObjModel.addAll self rest
            (h.setList self._history (h.getList self._history ++ [r])) := rfl
    have hlen : (h.setList self._history
        (h.getList self._history ++ [r])).lists.length = h.lists.length := by
      simp [ObjModel.PyHeap.setList]
    have hgl : (h.setList self._history
          (h.getList self._history ++ [r])).getList self._history
        = h.getList self._history ++ [r] := by
      simp only [ObjModel.PyHeap.getList, ObjModel.PyHeap.setList]
      rw [listGet?_set_self _ _ _ hlt]
      rfl
    have hcl : (h.setList self._history
        (h.getList self._history ++ [r])).calcs = h.calcs := rfl
    obtain ⟨ih1, ih2, ih3⟩ := ih (h.setList self._history
      (h.getList self._history ++ [r])) (by rw [hlen]; exact hlt)
    refine ⟨?_, ?_, ?_⟩
    · rw [hstep, ih1, hgl, List.append_assoc]
      rfl
    · rw [hstep, ih2, hlen]
    · rw [hstep, ih3, hcl]

/-- C7: build a fresh history, append N calculation references, and
take the defensive copy.  The copy lists exactly the appended
references in insertion order (so it has length N); it is a different
list object from the internal one; overwriting the copy's contents in
any way leaves the internal log — and hence every later get_history —
unchanged; and add_calculation refuses a non-Calculation argument with
a TypeError while leaving the heap exactly as it was. -/
theorem claimC7_history_copy_independent (h0 : ObjModel.PyHeap)
    (rs : List ObjModel.Ref) (self : ObjModel.CalculationHistory)
    (h1 h2 h3 : ObjModel.PyHeap) (copyRef : ObjModel.Ref)
    (hinit : ObjModel.init h0 = (self, h1))
    (hadd : ObjModel.addAll self rs h1 = h2)
    (hget : ObjModel.get_history self h2 = (copyRef, h3)) :
    h3.getList copyRef = rs
    ∧ (h3.getList copyRef).length = rs.length
    ∧ copyRef ≠ self._history
    ∧ (∀ l2, ((h3.setList copyRef l2).getList self._history) = rs)
    ∧ (∀ l2, (ObjModel.get_history self (h3.setList copyRef l2)).2.getList
          (ObjModel.get_history self (h3.setList copyRef l2)).1 = rs)
    ∧ (∀ v, ObjModel.add_calculation self (ObjModel.PyObj.other v) h3
        = (h3, some (PyErr.typeError "Must provide a Calculation instance"))) := by
  have hself : self = ⟨h0.lists.length⟩ := by
    have := congrArg Prod.fst hinit
    simpa [ObjModel.init, ObjModel.PyHeap.allocList] using this.symm
  have hh1 : h1 = { h0 with lists := h0.lists ++ [[]] } := by
    have := congrArg Prod.snd hinit
    simpa [ObjModel.init, ObjModel.PyHeap.allocList] using this.symm
  have hlt1 : self._history < h1.lists.length := by
    rw [hself, hh1]; simp
  obtain ⟨ha1, ha2, _⟩ := ObjModel.addAll_spec rs self h1 hlt1
  have hempty : h1.getList self._history = [] := by
    rw [hself, hh1]
    simp only [ObjModel.PyHeap.getList]
    rw [listGet?_append_self]
    rfl
  have hglh2 : h2.getList self._history = rs := by
    rw [← hadd, ha1, hempty]; rfl
  have hlt2 : self._history < h2.lists.length := by
    rw [← hadd, ha2]; exact hlt1
  have hcopy : copyRef = h2.lists.length := by
    have := congrArg Prod.fst hget
    simpa [ObjModel.get_history, ObjModel.PyHeap.allocList] using this.symm
  have hh3 : h3 = { h2 with lists := h2.lists ++ [h2.getList self._history] } := by
    have := congrArg Prod.snd hget
    simpa [ObjModel.get_history, ObjModel.PyHeap.allocList] using this.symm
  have hsh : self._history = h0.lists.length := by rw [hself]
  have hlen2 : h2.lists.length = h0.lists.length + 1 := by
    rw [← hadd, ha2, hh1]; simp
  have hne : copyRef ≠ self._history := by
    rw [hcopy, hlen2, hsh]
    exact Nat.succ_ne_self h0.lists.length
  have hglcopy : h3.getList copyRef = rs := by
    rw [hh3, hcopy]
    simp only [ObjModel.PyHeap.getList]
    rw [listGet?_append_self]
    exact hglh2
  have hglint : h3.getList self._history = rs := by
    rw [hh3]
    simp only [ObjModel.PyHeap.getList]
    rw [listGet?_append_left _ _ _ hlt2]
    exact hglh2
  have hmut : ∀ l2, ((h3.setList copyRef l2).getList self._history) = rs := by
    intro l2
    simp only [ObjModel.PyHeap.setList, ObjModel.PyHeap.getList]
    rw [listGet?_set_ne _ _ _ _ hne]
    exact hglint
  refine ⟨hglcopy, by rw [hglcopy], hne, hmut, ?_, fun v => rfl⟩
  intro l2
  simp only [ObjModel.get_history, ObjModel.PyHeap.allocList,
    ObjModel.PyHeap.getList]
  rw [listGet?_append_self]
  exact hmut l2

/-- Witness for C7: two calculations appended to a fresh history on an
empty heap, the copy overwritten with [9], a None argument rejected. -/
theorem claimC7_history_copy_independent_witness :
    (⟨[[0, 1], [0, 1]], []⟩ : ObjModel.PyHeap).getList 1 = [0, 1]
    ∧ (1 : ObjModel.Ref) ≠ (⟨0⟩ : ObjModel.CalculationHistory)._history
    ∧ ((⟨[[0, 1], [0, 1]], []⟩ : ObjModel.PyHeap).setList 1 [9]).getList
        (⟨0⟩ : ObjModel.CalculationHistory)._history = [0, 1]
    ∧ ObjModel.add_calculation ⟨0⟩ (ObjModel.PyObj.other PyValue.pyNone)
        ⟨[[0, 1], [0, 1]], []⟩
      = (⟨[[0, 1], [0, 1]], []⟩,
         some (PyErr.typeError "Must provide a Calculation instance")) := by
  obtain ⟨c1, c2, c3, c4, c5, c6⟩ :=
    claimC7_history_copy_independent ⟨[], []⟩ [0, 1] ⟨0⟩ ⟨[[]], []⟩
      ⟨[[0, 1]], []⟩ ⟨[[0, 1], [0, 1]], []⟩ 1 rfl rfl rfl
  exact ⟨c1, c3, c4 [9], c6 PyValue.pyNone⟩

/-- A successful positional read implies the index is in range. -/
theorem listGet?_lt {α : Type} (l : List α) (i : Nat) (a : α)
    (h : l.get? i = some a) : i < l.length := by
  induction l generalizing i with
  | nil => simp at h
  | cons x xs ih =>
    cases i with
    | zero => simp
    | succ n =>
      have := ih n (by simpa using h)
      simpa using this

/-- C10: the copy handed out by get_history is shallow.  Its contents
are the very same Calculation references as the internal log, and after
overwriting the `_result` field of a Calculation reached through the
copy, the internal log still holds that same reference at the same
position, the object behind it carries the new value, and a subsequent
get_history hands out the same references — so the history display
exposes the mutated object. -/
theorem claimC10_get_history_shallow (h : ObjModel.PyHeap)
    (self : ObjModel.CalculationHistory) (copyRef : ObjModel.Ref)
    (h3 : ObjModel.PyHeap)
    (hwf : self._history < h.lists.length)
    (hget : ObjModel.get_history self h = (copyRef, h3)) :
    h3.getList copyRef = h3.getList self._history
    ∧ (∀ (i : Nat) (c : ObjModel.Ref) (v : ℚ) (c0 : Calculation),
        (h3.getList copyRef).get? i = some c →
        h3.getCalc? c = some c0 →
        ((h3.setCalcResult c v).getList self._history).get? i = some c
        ∧ (h3.setCalcResult c v).getCalc? c
            = some { c0 with _result := some v }
        ∧ (ObjModel.get_history self (h3.setCalcResult c v)).2.getList
            (ObjModel.get_history self (h3.setCalcResult c v)).1
          = h3.getList self._history) := by
  have hcopy : copyRef = h.lists.length := by
    have := congrArg Prod.fst hget
    simpa [ObjModel.get_history, ObjModel.PyHeap.allocList] using this.symm
  have hh3 : h3 = { h with lists := h.lists ++ [h.getList self._history] } := by
    have := congrArg Prod.snd hget
    simpa [ObjModel.get_history, ObjModel.PyHeap.allocList] using this.symm
  have hshare : h3.getList copyRef = h.getList self._history := by
    rw [hh3, hcopy]
    simp only [ObjModel.PyHeap.getList]
    rw [listGet?_append_self]
    rfl
  have hint : h3.getList self._history = h.getList self._history := by
    rw [hh3]
    simp only [ObjModel.PyHeap.getList]
    rw [listGet?_append_left _ _ _ hwf]
  refine ⟨hshare.trans hint.symm, ?_⟩
  intro i c v c0 hi hc
  have hlists : (h3.setCalcResult c v).lists = h3.lists := by
    simp only [ObjModel.PyHeap.setCalcResult, ObjModel.PyHeap.getCalc?] at hc ⊢
    rw [hc]
  have hglmut : (h3.setCalcResult c v).getList self._history
      = h3.getList self._history := by
    simp only [ObjModel.PyHeap.getList, hlists]
  have hcl : c < h3.calcs.length :=
    listGet?_lt _ _ _ hc
  refine ⟨?_, ?_, ?_⟩
  · rw [hglmut, ← hshare.trans hint.symm]
    exact hi
  · simp only [ObjModel.PyHeap.setCalcResult, ObjModel.PyHeap.getCalc?] at hc ⊢
    rw [hc]
    simp only []
    exact listGet?_set_self _ _ _ hcl
  · simp only [ObjModel.get_history, ObjModel.PyHeap.allocList,
      ObjModel.PyHeap.getList, hlists]
    rw [listGet?_append_self]
    rfl

/-- Witness for C10 on a one-element history: the cached result of the
shared Calculation object is overwritten with 99 through the copy. -/
theorem claimC10_get_history_shallow_witness :
    (((⟨[[0], [0]], [⟨5, 3, _addition, some 8⟩]⟩ :
        ObjModel.PyHeap).setCalcResult 0 99).getList 0).get? 0 = some 0
    ∧ ((⟨[[0], [0]], [⟨5, 3, _addition, some 8⟩]⟩ :
        ObjModel.PyHeap).setCalcResult 0 99).getCalc? 0
      = some ⟨5, 3, _addition, some 99⟩ := by
  obtain ⟨_, hmut⟩ :=
    claimC10_get_history_shallow ⟨[[0]], [⟨5, 3, _addition, some 8⟩]⟩ ⟨0⟩ 1
      ⟨[[0], [0]], [⟨5, 3, _addition, some 8⟩]⟩ (by decide) rfl
  obtain ⟨ha, hb, _⟩ := hmut 0 0 99 ⟨5, 3, _addition, some 8⟩ rfl rfl
  exact ⟨ha, hb⟩
